import Mathlib

/-!
Verification development for the EoI CAN telemetry core
(`eoi-can-decoder` and `draw-display` crates).

The Rust sources are shallowly embedded:

* machine integers become `Nat`/`Int` (payload bytes are `Nat`s in `0..256`;
  the decoder only recombines them, so no modular wrap-around occurs);
* `f32` values that the decoder merely *reinterprets* from wire bytes
  (`f32::from_le_bytes`) are represented by their 32-bit little-endian IEEE-754
  bit pattern (a `Nat`) — the decoder performs no arithmetic on them;
* `f32` values *computed* by the decoder from integers with a decimal scale
  factor (e.g. `u16 / 100.0`) are represented exactly in `ℚ`;
* fallible Rust code returning `Option` becomes Lean `Option` with monadic
  binds mirroring the `?` operator.
-/

namespace Decoder

/-- `embedded_can::Id`: a standard (11-bit) or extended (29-bit) CAN
identifier, tagged. -/
inductive CanId where
  | standard (n : Nat) : CanId
  | extended (n : Nat) : CanId
deriving DecidableEq, Repr

/-- `id.as_raw()` with the normalization performed at the top of
`parse_eoi_can_data`: both tags expose their raw numeric identifier. -/
def CanId.raw : CanId → Nat
  | .standard n => n
  | .extended n => n

/-- `CanFrame` from `eoi-can-decoder/src/can_frame.rs`: an identifier plus a
payload of at most 8 bytes (the length bound plays no role in the decoder,
which guards every access). -/
structure CanFrame where
  id : CanId
  data : List Nat
deriving DecidableEq, Repr

/-- Rust `data.get(a..b)` on a slice: `Some` sub-slice when the range is in
bounds, `None` otherwise. -/
def sliceGet (data : List Nat) (a b : Nat) : Option (List Nat) :=
  if a ≤ b ∧ b ≤ data.length then some ((data.drop a).take (b - a)) else none

/-- `u16::from_le_bytes` after the length-2 check of `bytes_le_to_u16`. -/
def bytes_le_to_u16 (bytes : List Nat) : Option Nat :=
  match bytes with
  | [b0, b1] => some (b0 + b1 * 0x100)
  | _ => none

/-- `u32::from_le_bytes` after the length-4 check of `bytes_le_to_u32`. -/
def bytes_le_to_u32 (bytes : List Nat) : Option Nat :=
  match bytes with
  | [b0, b1, b2, b3] => some (b0 + b1 * 0x100 + b2 * 0x10000 + b3 * 0x1000000)
  | _ => none

/-- `u32::from_be_bytes` after the length-4 check of `bytes_be_to_u32`. -/
def bytes_be_to_u32 (bytes : List Nat) : Option Nat :=
  match bytes with
  | [b0, b1, b2, b3] => some (b3 + b2 * 0x100 + b1 * 0x10000 + b0 * 0x1000000)
  | _ => none

/-- Two's-complement reading of a 16-bit pattern, for `i16::from_*_bytes`. -/
def asI16 (v : Nat) : Int :=
  if v < 0x8000 then (v : Int) else (v : Int) - 0x10000

/-- Two's-complement reading of a 32-bit pattern, for `i32::from_be_bytes`. -/
def asI32 (v : Nat) : Int :=
  if v < 0x80000000 then (v : Int) else (v : Int) - 0x100000000

/-- Two's-complement reading of a byte, for Rust `u8 as i8` casts. -/
def asI8 (b : Nat) : Int :=
  if b < 0x80 then (b : Int) else (b : Int) - 0x100

/-- `i16::from_be_bytes` after the length-2 check of `bytes_be_to_i16`. -/
def bytes_be_to_i16 (bytes : List Nat) : Option Int :=
  match bytes with
  | [b0, b1] => some (asI16 (b1 + b0 * 0x100))
  | _ => none

/-- `i16::from_le_bytes` after the length-2 check of `bytes_le_to_i16`. -/
def bytes_le_to_i16 (bytes : List Nat) : Option Int :=
  match bytes with
  | [b0, b1] => some (asI16 (b0 + b1 * 0x100))
  | _ => none

/-- `i32::from_be_bytes` after the length-4 check of `bytes_be_to_i32`. -/
def bytes_be_to_i32 (bytes : List Nat) : Option Int :=
  match bytes with
  | [b0, b1, b2, b3] => some (asI32 (b3 + b2 * 0x100 + b1 * 0x10000 + b0 * 0x1000000))
  | _ => none

/-- `f32::from_le_bytes` after the length-4 check of `bytes_le_to_f32`; the
float is represented by its 32-bit bit pattern (the decoder does no
arithmetic on these values). -/
def bytes_le_to_f32 (bytes : List Nat) : Option Nat :=
  match bytes with
  | [b0, b1, b2, b3] => some (b0 + b1 * 0x100 + b2 * 0x10000 + b3 * 0x1000000)
  | _ => none

/-- `f64::from_le_bytes` after the length-8 check of `bytes_le_to_f64`; the
float is represented by its 64-bit bit pattern. -/
def bytes_le_to_f64 (bytes : List Nat) : Option Nat :=
  match bytes with
  | [b0, b1, b2, b3, b4, b5, b6, b7] =>
      some (b0 + b1 * 0x100 + b2 * 0x10000 + b3 * 0x1000000 +
            b4 * 0x100000000 + b5 * 0x10000000000 + b6 * 0x1000000000000 +
            b7 * 0x100000000000000)
  | _ => none

/-- IEEE-754 `-1.0 * x` on an `f32` bit pattern: flips the sign bit. -/
def f32_neg (bits : Nat) : Nat :=
  if bits < 0x80000000 then bits + 0x80000000 else bits - 0x80000000

/-- `GnssStatus`. -/
structure GnssStatus where
  fix : Nat
  sats : Nat
  sats_used : Nat
deriving DecidableEq, Repr

/-- `GnssDateTime`. -/
structure GnssDateTime where
  year : Nat
  month : Nat
  day : Nat
  hours : Nat
  minutes : Nat
  seconds : Nat
deriving DecidableEq, Repr

/-- `GnssData`; latitude/longitude carry `f64` bit patterns, speed/heading
carry `f32` bit patterns. -/
inductive GnssData where
  | gnssStatus (s : GnssStatus) : GnssData
  | gnssSpeedAndHeading (speed heading : Nat) : GnssData
  | gnssLatitude (bits : Nat) : GnssData
  | gnssLongitude (bits : Nat) : GnssData
  | gnssDateTime (d : GnssDateTime) : GnssData
deriving DecidableEq, Repr

/-- `ThrottleStatus`; `value` is the exact rational `(i16 / 512) * 100`. -/
structure ThrottleStatus where
  value : ℚ
  raw_angle : Int
  raw_deadmen : Int
  gain : Nat
  error_any : Bool
  error_twi : Nat
  error_no_eeprom : Bool
  error_gain_clipping : Bool
  error_gain_invalid : Bool
  error_deadman_missing : Bool
  error_impedance_high : Bool
deriving DecidableEq, Repr

/-- `ThrottleControlType`, with the sentinel `unknown` default. -/
inductive ThrottleControlType where
  | dutyCycle
  | filteredDutyCycle
  | current
  | rpm
  | currentRelative
  | unknown
deriving DecidableEq, Repr

/-- `ThrottleConfig`. -/
structure ThrottleConfig where
  control_type : ThrottleControlType
  lever_forward : Int
  lever_backward : Int
deriving DecidableEq, Repr

/-- `ThrottleData`; the `ToVesc*` commands carry exact rationals
`i32 / 1000`. -/
inductive ThrottleData where
  | toVescDutyCycle (x : ℚ) : ThrottleData
  | toVescCurrent (x : ℚ) : ThrottleData
  | toVescRpm (x : ℚ) : ThrottleData
  | status (s : ThrottleStatus) : ThrottleData
  | config (c : ThrottleConfig) : ThrottleData
deriving DecidableEq, Repr

/-- `MpptChannelPower`; `voltage_in`/`current_in` are `f32` bit patterns. -/
structure MpptChannelPower where
  mppt_channel : Nat
  voltage_in : Nat
  current_in : Nat
deriving DecidableEq, Repr

/-- `MpptChannelState`. -/
structure MpptChannelState where
  mppt_channel : Nat
  duty_cycle : Nat
  algorithm : Nat
  algorithm_state : Nat
  channel_active : Bool
deriving DecidableEq, Repr

/-- `MpptPower`; `f32` bit patterns. -/
structure MpptPower where
  voltage_out : Nat
  current_out : Nat
deriving DecidableEq, Repr

/-- `MpptStatus`; `voltage_out_switch` is an `f32` bit pattern. -/
structure MpptStatus where
  voltage_out_switch : Nat
  temperature : Int
  state : Nat
  pwm_enabled : Bool
  switch_on : Bool
deriving DecidableEq, Repr

/-- `MpptInfo`. -/
inductive MpptInfo where
  | mpptChannelPower (p : MpptChannelPower) : MpptInfo
  | mpptChannelState (s : MpptChannelState) : MpptInfo
  | mpptPower (p : MpptPower) : MpptInfo
  | mpptStatus (s : MpptStatus) : MpptInfo
deriving DecidableEq, Repr

/-- `MpptData`. -/
structure MpptData where
  mppt_id : Nat
  info : MpptInfo
deriving DecidableEq, Repr

/-- `PackAndPerriCurrent`; `f32` bit patterns. -/
structure PackAndPerriCurrent where
  pack_current : Nat
  perri_current : Nat
deriving DecidableEq, Repr

/-- `ChargeAndDischargeCurrent`; `f32` bit patterns (`discharge_current` is
the sign-flipped wire value, from `-1.0 * ...`). -/
structure ChargeAndDischargeCurrent where
  discharge_current : Nat
  charge_current : Nat
deriving DecidableEq, Repr

/-- `SocErrorFlagsAndBalancing`; `state_of_charge` is the exact rational
`u16 / 100`. -/
structure SocErrorFlagsAndBalancing where
  state_of_charge : ℚ
  error_flags : Nat
  balancing_status : Nat
deriving DecidableEq, Repr

/-- `FourCellVoltages`; each entry is the exact rational `u16 / 1000`. -/
structure FourCellVoltages where
  cell_voltage : List ℚ
deriving DecidableEq, Repr

/-- `CellVoltages13_14PackAndStack`; exact rationals `u16 / 1000`. -/
structure CellVoltages13_14PackAndStack where
  cell_voltage : List ℚ
  pack_voltage : ℚ
  stack_voltage : ℚ
deriving DecidableEq, Repr

/-- `TemperaturesAndStates`; temperatures are `u8 as i8` reinterpretations. -/
structure TemperaturesAndStates where
  temperatures : List Int
  ic_temperature : Int
  battery_state : Nat
  charge_state : Nat
  discharge_state : Nat
deriving DecidableEq, Repr

/-- `BatteryUptime`. -/
structure BatteryUptime where
  uptime_ms : Nat
deriving DecidableEq, Repr

/-- `EoiBattery`. -/
inductive EoiBattery where
  | packAndPerriCurrent (d : PackAndPerriCurrent) : EoiBattery
  | chargeAndDischargeCurrent (d : ChargeAndDischargeCurrent) : EoiBattery
  | socErrorFlagsAndBalancing (d : SocErrorFlagsAndBalancing) : EoiBattery
  | cellVoltages1_4 (d : FourCellVoltages) : EoiBattery
  | cellVoltages5_8 (d : FourCellVoltages) : EoiBattery
  | cellVoltages9_12 (d : FourCellVoltages) : EoiBattery
  | cellVoltages13_14PackAndStack (d : CellVoltages13_14PackAndStack) : EoiBattery
  | temperaturesAndStates (d : TemperaturesAndStates) : EoiBattery
  | batteryUptime (d : BatteryUptime) : EoiBattery
deriving DecidableEq, Repr

/-- `VescData`; scaled fixed-point fields are exact rationals. -/
inductive VescData where
  | statusMessage1 (rpm : Int) (total_current duty_cycle : ℚ) : VescData
  | statusMessage2 (amp_hours_used amp_hours_generated : ℚ) : VescData
  | statusMessage3 (watt_hours_used watt_hours_generated : ℚ) : VescData
  | statusMessage4 (fet_temp motor_temp total_input_current current_pid_position : ℚ) : VescData
  | statusMessage5 (input_voltage : ℚ) (tachometer : Int) : VescData
deriving DecidableEq, Repr

/-- `EoiCanData`: the five top-level decoded message categories. -/
inductive EoiCanData where
  | eoiBattery (b : EoiBattery) : EoiCanData
  | vesc (v : VescData) : EoiCanData
  | throttle (t : ThrottleData) : EoiCanData
  | mppt (m : MpptData) : EoiCanData
  | gnss (g : GnssData) : EoiCanData
deriving DecidableEq, Repr

/-- The body of the MPPT range arm of `parse_eoi_can_data`
(info-field dispatch for identifiers in the `0x700` band). -/
def parse_mppt (id : Nat) (data : List Nat) : Option EoiCanData :=
  let mppt_id := (id >>> 4) &&& 0x7
  let info_field := id &&& 0xF
  let channel := info_field >>> 1
  if info_field = 0 ∨ info_field = 2 ∨ info_field = 4 ∨ info_field = 6 then do
    let s03 ← sliceGet data 0 4
    let voltage_in ← bytes_le_to_f32 s03
    let s47 ← sliceGet data 4 8
    let current_in ← bytes_le_to_f32 s47
    some (.mppt ⟨mppt_id, .mpptChannelPower ⟨channel, voltage_in, current_in⟩⟩)
  else if info_field = 1 ∨ info_field = 3 ∨ info_field = 5 ∨ info_field = 7 then do
    let s01 ← sliceGet data 0 2
    let duty ← bytes_le_to_u16 s01
    let alg ← data[2]?
    let alg_state ← data[3]?
    let active ← data[4]?
    some (.mppt ⟨mppt_id, .mpptChannelState ⟨channel, duty, alg, alg_state, active != 0⟩⟩)
  else if info_field = 8 then do
    let s03 ← sliceGet data 0 4
    let voltage_out ← bytes_le_to_f32 s03
    let s47 ← sliceGet data 4 8
    let current_out ← bytes_le_to_f32 s47
    some (.mppt ⟨mppt_id, .mpptPower ⟨voltage_out, current_out⟩⟩)
  else if info_field = 9 then do
    let s03 ← sliceGet data 0 4
    let voltage_out_switch ← bytes_le_to_f32 s03
    let s45 ← sliceGet data 4 6
    let temperature ← bytes_le_to_i16 s45
    let st ← data[6]?
    let b7 ← data[7]?
    some (.mppt ⟨mppt_id,
      .mpptStatus ⟨voltage_out_switch, temperature, st, b7 &&& 0b1 != 0, b7 &&& 0b10 != 0⟩⟩)
  else
    -- Ignore other info fields
    none

/-- The `0x1337 | 0x0337` arm of `parse_eoi_can_data`: dispatch on the
payload length (8 → status, 6 → config, otherwise `None`). -/
def parse_throttle (data : List Nat) : Option EoiCanData :=
  if data.length = 8 then do
    let s01 ← sliceGet data 0 2
    let raw ← bytes_be_to_i16 s01
    let s23 ← sliceGet data 2 4
    let raw_angle ← bytes_be_to_i16 s23
    let s45 ← sliceGet data 4 6
    let raw_deadmen ← bytes_be_to_i16 s45
    let gain ← data[6]?
    let b7 ← data[7]?
    some (.throttle (.status
      { value := ((raw : ℚ) / 512) * 100
        raw_angle := raw_angle
        raw_deadmen := raw_deadmen
        gain := gain
        error_any := b7 != 0
        error_twi := b7 &&& 0b111
        error_no_eeprom := b7 &&& (1 <<< 3) != 0
        error_gain_clipping := b7 &&& (1 <<< 4) != 0
        error_gain_invalid := b7 &&& (1 <<< 5) != 0
        error_deadman_missing := b7 &&& (1 <<< 6) != 0
        error_impedance_high := b7 &&& (1 <<< 7) != 0 }))
  else if data.length = 6 then do
    let b0 ← data[0]?
    let s23 ← sliceGet data 2 4
    let lever_forward ← bytes_be_to_i16 s23
    let s45 ← sliceGet data 4 6
    let lever_backward ← bytes_be_to_i16 s45
    some (.throttle (.config
      { control_type :=
          if b0 = 0 then .dutyCycle
          else if b0 = 1 then .filteredDutyCycle
          else if b0 = 2 then .current
          else if b0 = 3 then .rpm
          else if b0 = 4 then .currentRelative
          else .unknown
        lever_forward := lever_forward
        lever_backward := lever_backward }))
  else none

/-- `parse_eoi_can_data` from `eoi-can-decoder/src/lib.rs`: normalizes the
identifier and dispatches, arm for arm in source order, to the decode
routine; the MPPT band `0x700 .. 0x700 + 8*16 - 1` is a half-open Rust range
pattern, hence `id < 0x77F`. -/
def parse_eoi_can_data (frame : CanFrame) : Option EoiCanData :=
  let id := frame.id.raw
  let data := frame.data
  if id = 0x100 then do
    let s03 ← sliceGet data 0 4
    let pack_current ← bytes_le_to_f32 s03
    let s47 ← sliceGet data 4 8
    let perri_current ← bytes_le_to_f32 s47
    some (.eoiBattery (.packAndPerriCurrent ⟨pack_current, perri_current⟩))
  else if id = 0x101 then do
    let s03 ← sliceGet data 0 4
    let charge_current ← bytes_le_to_f32 s03
    let s47 ← sliceGet data 4 8
    let discharge_raw ← bytes_le_to_f32 s47
    some (.eoiBattery (.chargeAndDischargeCurrent ⟨f32_neg discharge_raw, charge_current⟩))
  else if id = 0x102 then do
    let s01 ← sliceGet data 0 2
    let soc ← bytes_le_to_u16 s01
    let s25 ← sliceGet data 2 6
    let error_flags ← bytes_le_to_u32 s25
    let s67 ← sliceGet data 6 8
    let balancing ← bytes_le_to_u16 s67
    some (.eoiBattery (.socErrorFlagsAndBalancing ⟨(soc : ℚ) / 100, error_flags, balancing⟩))
  else if id = 0x103 then do
    let s01 ← sliceGet data 0 2
    let r0 ← bytes_le_to_u16 s01
    let v0 := (r0 : ℚ) / 1000
    let s23 ← sliceGet data 2 4
    let r1 ← bytes_le_to_u16 s23
    let v1 := (r1 : ℚ) / 1000
    let s45 ← sliceGet data 4 6
    let r2 ← bytes_le_to_u16 s45
    let v2 := (r2 : ℚ) / 1000
    let s67 ← sliceGet data 6 8
    let r3 ← bytes_le_to_u16 s67
    let v3 := (r3 : ℚ) / 1000
    some (.eoiBattery (.cellVoltages1_4 ⟨[v0, v1, v2, v3]⟩))
  else if id = 0x104 then do
    let s01 ← sliceGet data 0 2
    let r0 ← bytes_le_to_u16 s01
    let v0 := (r0 : ℚ) / 1000
    let s23 ← sliceGet data 2 4
    let r1 ← bytes_le_to_u16 s23
    let v1 := (r1 : ℚ) / 1000
    let s45 ← sliceGet data 4 6
    let r2 ← bytes_le_to_u16 s45
    let v2 := (r2 : ℚ) / 1000
    let s67 ← sliceGet data 6 8
    let r3 ← bytes_le_to_u16 s67
    let v3 := (r3 : ℚ) / 1000
    some (.eoiBattery (.cellVoltages5_8 ⟨[v0, v1, v2, v3]⟩))
  else if id = 0x105 then do
    let s01 ← sliceGet data 0 2
    let r0 ← bytes_le_to_u16 s01
    let v0 := (r0 : ℚ) / 1000
    let s23 ← sliceGet data 2 4
    let r1 ← bytes_le_to_u16 s23
    let v1 := (r1 : ℚ) / 1000
    let s45 ← sliceGet data 4 6
    let r2 ← bytes_le_to_u16 s45
    let v2 := (r2 : ℚ) / 1000
    let s67 ← sliceGet data 6 8
    let r3 ← bytes_le_to_u16 s67
    let v3 := (r3 : ℚ) / 1000
    some (.eoiBattery (.cellVoltages9_12 ⟨[v0, v1, v2, v3]⟩))
  else if id = 0x106 then do
    let s01 ← sliceGet data 0 2
    let r0 ← bytes_le_to_u16 s01
    let v0 := (r0 : ℚ) / 1000
    let s23 ← sliceGet data 2 4
    let r1 ← bytes_le_to_u16 s23
    let v1 := (r1 : ℚ) / 1000
    let s45 ← sliceGet data 4 6
    let r2 ← bytes_le_to_u16 s45
    let pack := (r2 : ℚ) / 1000
    let s67 ← sliceGet data 6 8
    let r3 ← bytes_le_to_u16 s67
    let stack := (r3 : ℚ) / 1000
    some (.eoiBattery (.cellVoltages13_14PackAndStack ⟨[v0, v1], pack, stack⟩))
  else if id = 0x107 then do
    let t0 ← data[0]?
    let t1 ← data[1]?
    let t2 ← data[2]?
    let t3 ← data[3]?
    let ic ← data[4]?
    let battery_state ← data[5]?
    let charge_state ← data[6]?
    let discharge_state ← data[7]?
    some (.eoiBattery (.temperaturesAndStates
      ⟨[asI8 t0, asI8 t1, asI8 t2, asI8 t3], asI8 ic,
        battery_state, charge_state, discharge_state⟩))
  else if id = 0x108 then do
    let s03 ← sliceGet data 0 4
    let uptime ← bytes_le_to_u32 s03
    some (.eoiBattery (.batteryUptime ⟨uptime⟩))
  else if id = 0x200 then do
    let fix ← data[0]?
    let sats ← data[1]?
    let sats_used ← data[2]?
    some (.gnss (.gnssStatus ⟨fix, sats, sats_used⟩))
  else if id = 0x201 then do
    let s03 ← sliceGet data 0 4
    let speed ← bytes_le_to_f32 s03
    let s47 ← sliceGet data 4 8
    let heading ← bytes_le_to_f32 s47
    some (.gnss (.gnssSpeedAndHeading speed heading))
  else if id = 0x202 then do
    let s07 ← sliceGet data 0 8
    let lat ← bytes_le_to_f64 s07
    some (.gnss (.gnssLatitude lat))
  else if id = 0x203 then do
    let s07 ← sliceGet data 0 8
    let lon ← bytes_le_to_f64 s07
    some (.gnss (.gnssLongitude lon))
  else if id = 0x204 then do
    let s01 ← sliceGet data 0 2
    let year ← bytes_le_to_u16 s01
    let month ← data[2]?
    let day ← data[3]?
    let hours ← data[4]?
    let minutes ← data[5]?
    let seconds ← data[6]?
    some (.gnss (.gnssDateTime ⟨year, month, day, hours, minutes, seconds⟩))
  else if 0x700 ≤ id ∧ id < 0x77F then
    parse_mppt id data
  else if id = 0x0909 then do
    let s03 ← sliceGet data 0 4
    let rpm ← bytes_be_to_i32 s03
    let s45 ← sliceGet data 4 6
    let total_current ← bytes_be_to_i16 s45
    let s67 ← sliceGet data 6 8
    let duty ← bytes_be_to_i16 s67
    some (.vesc (.statusMessage1 rpm ((total_current : ℚ) / 10) ((duty : ℚ) / 10)))
  else if id = 0x0E09 then do
    let s03 ← sliceGet data 0 4
    let used ← bytes_be_to_u32 s03
    let s47 ← sliceGet data 4 8
    let gen ← bytes_be_to_u32 s47
    some (.vesc (.statusMessage2 ((used : ℚ) / 10000) ((gen : ℚ) / 10000)))
  else if id = 0x0F09 then do
    let s03 ← sliceGet data 0 4
    let used ← bytes_be_to_u32 s03
    let s47 ← sliceGet data 4 8
    let gen ← bytes_be_to_u32 s47
    some (.vesc (.statusMessage3 ((used : ℚ) / 10000) ((gen : ℚ) / 10000)))
  else if id = 0x1009 then do
    let s01 ← sliceGet data 0 2
    let fet ← bytes_be_to_i16 s01
    let s23 ← sliceGet data 2 4
    let motor ← bytes_be_to_i16 s23
    let s45 ← sliceGet data 4 6
    let input ← bytes_be_to_i16 s45
    let s67 ← sliceGet data 6 8
    let pid ← bytes_be_to_i16 s67
    some (.vesc (.statusMessage4
      ((fet : ℚ) / 10) ((motor : ℚ) / 10) ((input : ℚ) / 10) ((pid : ℚ) / 50)))
  else if id = 0x1B09 then do
    let s45 ← sliceGet data 4 6
    let volt ← bytes_be_to_i16 s45
    let s03 ← sliceGet data 0 4
    let tach ← bytes_be_to_i32 s03
    some (.vesc (.statusMessage5 ((volt : ℚ) / 10) tach))
  else if id = 0x0009 then do
    let s03 ← sliceGet data 0 4
    let v ← bytes_be_to_i32 s03
    some (.throttle (.toVescDutyCycle ((v : ℚ) / 1000)))
  else if id = 0x0109 then do
    let s03 ← sliceGet data 0 4
    let v ← bytes_be_to_i32 s03
    some (.throttle (.toVescCurrent ((v : ℚ) / 1000)))
  else if id = 0x0309 then do
    let s03 ← sliceGet data 0 4
    let v ← bytes_be_to_i32 s03
    some (.throttle (.toVescRpm ((v : ℚ) / 1000)))
  else if id = 0x1337 ∨ id = 0x0337 then
    parse_throttle data
  else none

end Decoder

namespace Decoder

lemma bne_and_pow (b k m : Nat) (hm : m = 2 ^ k) : (b &&& m != 0) = b.testBit k := by
  subst hm
  rw [Nat.and_two_pow]
  cases h : b.testBit k <;> simp [h]

lemma beq_nat_decide (a b : Nat) : (a == b) = decide (a = b) := by
  by_cases h : a = b <;> simp [h]

lemma and_seven (b : Nat) : b &&& 0b111 = b % 8 := by
  have := Nat.and_pow_two_sub_one_eq_mod b 3
  norm_num at this
  omega

lemma and_fifteen (x : Nat) : x &&& 0xF = x % 16 := by
  have := Nat.and_pow_two_sub_one_eq_mod x 4
  norm_num at this
  omega

lemma and_sevenX (x : Nat) : x &&& 0x7 = x % 8 := by
  have := Nat.and_pow_two_sub_one_eq_mod x 3
  norm_num at this
  omega

lemma shr_four (x : Nat) : x >>> 4 = x / 16 := by
  rw [Nat.shiftRight_eq_div_pow]

lemma band_info_field (m f : Nat) (hf : f < 16) :
    (0x700 + 16 * m + f) &&& 0xF = f := by
  rw [and_fifteen]
  omega

lemma band_mppt_id (m f : Nat) (hm : m < 8) (hf : f < 16) :
    ((0x700 + 16 * m + f) >>> 4) &&& 0x7 = m := by
  rw [shr_four, and_sevenX]
  omega

/-- Identifiers in the half-open MPPT band dispatch to `parse_mppt`: every
earlier exact-match arm of `parse_eoi_can_data` misses. -/
lemma parse_band (cid : CanId) (data : List Nat)
    (h1 : 0x700 ≤ cid.raw) (h2 : cid.raw < 0x77F) :
    parse_eoi_can_data ⟨cid, data⟩ = parse_mppt cid.raw data := by
  simp only [parse_eoi_can_data]
  iterate 14 rw [if_neg (by omega)]
  rw [if_pos ⟨h1, h2⟩]

/-- C2: for every identifier in the inclusive band
`[0x700, 0x700 + 8*16 - 1]` (written `0x700 + 16*m + f` with
`mppt_id = m < 8` and `info_field = f < 16`, so `channel = f / 2`) and a full
8-byte payload, decoding yields: for info fields 0/2/4/6 a per-channel power
message with the two little-endian `f32` words; for 1/3/5/7 a per-channel
duty-cycle/state message; for 8 the aggregate output-power message; for 9
the status/temperature message with the two boolean flags packed in the low
2 bits of the last byte; and `none` for every other info field in the
band. -/
theorem mppt_band_decode (m f : Nat) (hm : m < 8) (hf : f < 16) (cid : CanId)
    (hcid : cid.raw = 0x700 + 16 * m + f) (b0 b1 b2 b3 b4 b5 b6 b7 : Nat) :
    parse_eoi_can_data ⟨cid, [b0, b1, b2, b3, b4, b5, b6, b7]⟩ =
      (if f = 0 ∨ f = 2 ∨ f = 4 ∨ f = 6 then
        some (.mppt ⟨m, .mpptChannelPower ⟨f / 2,
          b0 + b1 * 0x100 + b2 * 0x10000 + b3 * 0x1000000,
          b4 + b5 * 0x100 + b6 * 0x10000 + b7 * 0x1000000⟩⟩)
      else if f = 1 ∨ f = 3 ∨ f = 5 ∨ f = 7 then
        some (.mppt ⟨m, .mpptChannelState ⟨f / 2, b0 + b1 * 0x100, b2, b3, b4 != 0⟩⟩)
      else if f = 8 then
        some (.mppt ⟨m, .mpptPower ⟨b0 + b1 * 0x100 + b2 * 0x10000 + b3 * 0x1000000,
          b4 + b5 * 0x100 + b6 * 0x10000 + b7 * 0x1000000⟩⟩)
      else if f = 9 then
        some (.mppt ⟨m, .mpptStatus ⟨b0 + b1 * 0x100 + b2 * 0x10000 + b3 * 0x1000000,
          asI16 (b4 + b5 * 0x100), b6, b7.testBit 0, b7.testBit 1⟩⟩)
      else none) := by
  by_cases hend : 0x700 + 16 * m + f < 0x77F
  · rw [parse_band cid _ (by omega) (by omega), hcid]
    simp only [parse_mppt]
    rw [band_info_field m f hf, band_mppt_id m f hm hf]
    interval_cases f <;>
      simp [sliceGet, bytes_le_to_f32, bytes_le_to_u16, bytes_le_to_i16] <;>
      try exact ⟨beq_nat_decide _ _, bne_and_pow _ 1 _ rfl⟩
  · have hm7 : m = 7 := by omega
    have hf15 : f = 15 := by omega
    subst hm7 hf15
    norm_num at hcid
    rcases cid with n | n <;> simp only [CanId.raw] at hcid <;> subst hcid <;>
      simp [parse_eoi_can_data, CanId.raw]

/-- Witness for C2: instantiates `mppt_band_decode` at the first channel of
MPPT controller 0. -/
theorem mppt_band_decode_witness :
    parse_eoi_can_data ⟨.extended 0x700, [1, 2, 3, 4, 5, 6, 7, 8]⟩ =
      some (.mppt ⟨0, .mpptChannelPower ⟨0,
        1 + 2 * 0x100 + 3 * 0x10000 + 4 * 0x1000000,
        5 + 6 * 0x100 + 7 * 0x10000 + 8 * 0x1000000⟩⟩) := by
  have h := mppt_band_decode 0 0 (by decide) (by decide) (.extended 0x700) rfl 1 2 3 4 5 6 7 8
  simpa using h

/-- C6: golden decode vectors — identifier `0x102` with on-wire payload
`25 26 00 00 00 00 00 00` yields the SOC/error-flags/balancing message with
`state_of_charge = 97.65` (little-endian `u16` divided by 100),
`error_flags = 0`, `balancing_status = 0`; identifier `0x108` with payload
`6C B0 22 3B` yields `uptime_ms = 992129132` (little-endian `u32`). -/
theorem golden_vectors_0x102_0x108 :
    parse_eoi_can_data ⟨.standard 0x102, [0x25, 0x26, 0, 0, 0, 0, 0, 0]⟩ =
      some (.eoiBattery (.socErrorFlagsAndBalancing ⟨97.65, 0, 0⟩)) ∧
    parse_eoi_can_data ⟨.standard 0x108, [0x6C, 0xB0, 0x22, 0x3B]⟩ =
      some (.eoiBattery (.batteryUptime ⟨992129132⟩)) := by
  have h : (97.65 : ℚ) = ((9765 : Nat) : ℚ) / 100 := by norm_num
  rw [h]
  exact ⟨rfl, rfl⟩

/-- C7: for identifiers `0x1337` and `0x0337` the decoder dispatches on the
payload length alone — an 8-byte payload yields the throttle status record
whose last byte is unpacked into a 3-bit error sub-code (its low 3 bits)
and five independent boolean flags (bits 3 through 7); a 6-byte payload
yields the throttle configuration record whose first byte selects the
control type, where every byte value outside `0..=4` maps to the sentinel
`unknown` variant; any other payload length yields `none`. -/
theorem throttle_length_dispatch (tid : Nat) (htid : tid = 0x1337 ∨ tid = 0x0337) :
    (∀ b0 b1 b2 b3 b4 b5 b6 b7 : Nat,
      parse_eoi_can_data ⟨.extended tid, [b0, b1, b2, b3, b4, b5, b6, b7]⟩ =
        some (.throttle (.status
          { value := ((asI16 (b1 + b0 * 0x100) : ℚ) / 512) * 100
            raw_angle := asI16 (b3 + b2 * 0x100)
            raw_deadmen := asI16 (b5 + b4 * 0x100)
            gain := b6
            error_any := b7 != 0
            error_twi := b7 % 8
            error_no_eeprom := b7.testBit 3
            error_gain_clipping := b7.testBit 4
            error_gain_invalid := b7.testBit 5
            error_deadman_missing := b7.testBit 6
            error_impedance_high := b7.testBit 7 }))) ∧
    (∀ b0 b1 b2 b3 b4 b5 : Nat,
      parse_eoi_can_data ⟨.extended tid, [b0, b1, b2, b3, b4, b5]⟩ =
        some (.throttle (.config
          { control_type :=
              [ThrottleControlType.dutyCycle, .filteredDutyCycle, .current, .rpm,
                .currentRelative].getD b0 .unknown
            lever_forward := asI16 (b3 + b2 * 0x100)
            lever_backward := asI16 (b5 + b4 * 0x100) }))) ∧
    (∀ data : List Nat, data.length ≠ 8 → data.length ≠ 6 →
      parse_eoi_can_data ⟨.extended tid, data⟩ = none) := by
  refine ⟨fun b0 b1 b2 b3 b4 b5 b6 b7 => ?_, fun b0 b1 b2 b3 b4 b5 => ?_,
    fun data h8 h6 => ?_⟩
  · rcases htid with h | h <;> subst h <;>
      · simp [parse_eoi_can_data, parse_throttle, sliceGet, bytes_be_to_i16, CanId.raw,
          and_seven]
        exact ⟨bne_and_pow _ 3 _ rfl, bne_and_pow _ 4 _ rfl, bne_and_pow _ 5 _ rfl,
          bne_and_pow _ 6 _ rfl, bne_and_pow _ 7 _ rfl⟩
  · have h5 : b0 = 0 ∨ b0 = 1 ∨ b0 = 2 ∨ b0 = 3 ∨ b0 = 4 ∨ 5 ≤ b0 := by omega
    rcases htid with h | h <;> subst h <;>
      rcases h5 with h | h | h | h | h | h <;>
        first
          | (subst h; rfl)
          | · rw [show ([ThrottleControlType.dutyCycle, .filteredDutyCycle, .current, .rpm,
                .currentRelative].getD b0 .unknown) = .unknown from by
                  rw [List.getD_eq_default]; simp; omega]
              simp [parse_eoi_can_data, parse_throttle, sliceGet, bytes_be_to_i16, CanId.raw]
              split_ifs <;> first | omega | rfl
  · rcases htid with h | h <;> subst h <;>
      simp [parse_eoi_can_data, parse_throttle, CanId.raw, h8, h6]

/-- Witness for C7: a 1-byte payload on `0x1337` decodes to `none`. -/
theorem throttle_length_dispatch_witness :
    parse_eoi_can_data ⟨.extended 0x1337, [0]⟩ = none :=
  (throttle_length_dispatch 0x1337 (Or.inl rfl)).2.2 [0] (by decide) (by decide)

end Decoder
namespace Decoder

/-- The minimal payload length each decode routine of `parse_eoi_can_data`
needs before all of its fixed byte offsets are readable, per identifier
(and, for the length-dispatched throttle arm and the unrecognized arms, per
incoming payload length: `len + 1` marks "always `none`"). Derived
offset-for-offset from the source's slice and index accesses. -/
def required_len (id : Nat) (len : Nat) : Nat :=
  if id = 0x100 then 8
  else if id = 0x101 then 8
  else if id = 0x102 then 8
  else if id = 0x103 then 8
  else if id = 0x104 then 8
  else if id = 0x105 then 8
  else if id = 0x106 then 8
  else if id = 0x107 then 8
  else if id = 0x108 then 4
  else if id = 0x200 then 3
  else if id = 0x201 then 8
  else if id = 0x202 then 8
  else if id = 0x203 then 8
  else if id = 0x204 then 7
  else if 0x700 ≤ id ∧ id < 0x77F then
    (if id &&& 0xF = 0 ∨ id &&& 0xF = 2 ∨ id &&& 0xF = 4 ∨ id &&& 0xF = 6 then 8
     else if id &&& 0xF = 1 ∨ id &&& 0xF = 3 ∨ id &&& 0xF = 5 ∨ id &&& 0xF = 7 then 5
     else if id &&& 0xF = 8 then 8
     else if id &&& 0xF = 9 then 8
     else len + 1)
  else if id = 0x0909 then 8
  else if id = 0x0E09 then 8
  else if id = 0x0F09 then 8
  else if id = 0x1009 then 8
  else if id = 0x1B09 then 6
  else if id = 0x0009 then 4
  else if id = 0x0109 then 4
  else if id = 0x0309 then 4
  else if id = 0x1337 ∨ id = 0x0337 then
    (if len = 8 then 8 else if len = 6 then 6 else len + 1)
  else len + 1

lemma sliceGet_noneLt (data : List Nat) (a b : Nat) (h : data.length < b) :
    sliceGet data a b = none := by
  simp only [sliceGet, ite_eq_right_iff]
  intro hc
  omega

lemma getElem_noneLt (data : List Nat) (i : Nat) (h : data.length < i + 1) :
    data[i]? = none := by
  rw [List.getElem?_eq_none]
  omega

lemma none_bindM {α β : Type} (f : α → Option β) : ((none : Option α) >>= f) = none := rfl

lemma bind_fun_noneM {α β : Type} (e : Option α) :
    (e >>= fun _ => (none : Option β)) = none := by
  cases e <;> rfl

/-- C1: totality / no partial decode — for every frame whose payload is
shorter than the fixed byte offsets its identifier's decode routine reads
(`required_len`), `parse_eoi_can_data` returns `none` for the whole frame;
together with the embedding being a total function this covers the claim
that the decoder never panics and yields `Some` or `None` only.
-/
theorem parse_short_payload_none (frame : CanFrame)
    (h : frame.data.length < required_len frame.id.raw frame.data.length) :
    parse_eoi_can_data frame = none := by
  obtain ⟨cid, data⟩ := frame
  simp only [required_len] at h
  simp only [parse_eoi_can_data]
  by_cases c1 : cid.raw = 0x100
  · rw [if_pos c1] at h ⊢
    simp only [sliceGet_noneLt data 4 8 (by omega), none_bindM, bind_fun_noneM]
  rw [if_neg c1] at h ⊢
  by_cases c2 : cid.raw = 0x101
  · rw [if_pos c2] at h ⊢
    simp only [sliceGet_noneLt data 4 8 (by omega), none_bindM, bind_fun_noneM]
  rw [if_neg c2] at h ⊢
  by_cases c3 : cid.raw = 0x102
  · rw [if_pos c3] at h ⊢
    simp only [sliceGet_noneLt data 6 8 (by omega), none_bindM, bind_fun_noneM]
  rw [if_neg c3] at h ⊢
  by_cases c4 : cid.raw = 0x103
  · rw [if_pos c4] at h ⊢
    simp only [sliceGet_noneLt data 6 8 (by omega), none_bindM, bind_fun_noneM]
  rw [if_neg c4] at h ⊢
  by_cases c5 : cid.raw = 0x104
  · rw [if_pos c5] at h ⊢
    simp only [sliceGet_noneLt data 6 8 (by omega), none_bindM, bind_fun_noneM]
  rw [if_neg c5] at h ⊢
  by_cases c6 : cid.raw = 0x105
  · rw [if_pos c6] at h ⊢
    simp only [sliceGet_noneLt data 6 8 (by omega), none_bindM, bind_fun_noneM]
  rw [if_neg c6] at h ⊢
  by_cases c7 : cid.raw = 0x106
  · rw [if_pos c7] at h ⊢
    simp only [sliceGet_noneLt data 6 8 (by omega), none_bindM, bind_fun_noneM]
  rw [if_neg c7] at h ⊢
  by_cases c8 : cid.raw = 0x107
  · rw [if_pos c8] at h ⊢
    simp only [getElem_noneLt data 7 (by omega), none_bindM, bind_fun_noneM]
  rw [if_neg c8] at h ⊢
  by_cases c9 : cid.raw = 0x108
  · rw [if_pos c9] at h ⊢
    simp only [sliceGet_noneLt data 0 4 (by omega), none_bindM, bind_fun_noneM]
  rw [if_neg c9] at h ⊢
  by_cases c10 : cid.raw = 0x200
  · rw [if_pos c10] at h ⊢
    simp only [getElem_noneLt data 2 (by omega), none_bindM, bind_fun_noneM]
  rw [if_neg c10] at h ⊢
  by_cases c11 : cid.raw = 0x201
  · rw [if_pos c11] at h ⊢
    simp only [sliceGet_noneLt data 4 8 (by omega), none_bindM, bind_fun_noneM]
  rw [if_neg c11] at h ⊢
  by_cases c12 : cid.raw = 0x202
  · rw [if_pos c12] at h ⊢
    simp only [sliceGet_noneLt data 0 8 (by omega), none_bindM, bind_fun_noneM]
  rw [if_neg c12] at h ⊢
  by_cases c13 : cid.raw = 0x203
  · rw [if_pos c13] at h ⊢
    simp only [sliceGet_noneLt data 0 8 (by omega), none_bindM, bind_fun_noneM]
  rw [if_neg c13] at h ⊢
  by_cases c14 : cid.raw = 0x204
  · rw [if_pos c14] at h ⊢
    simp only [getElem_noneLt data 6 (by omega), none_bindM, bind_fun_noneM]
  rw [if_neg c14] at h ⊢
  by_cases c15 : 0x700 ≤ cid.raw ∧ cid.raw < 0x77F
  · rw [if_pos c15] at h ⊢
    simp only [parse_mppt]
    by_cases m1 : cid.raw &&& 0xF = 0 ∨ cid.raw &&& 0xF = 2 ∨ cid.raw &&& 0xF = 4 ∨ cid.raw &&& 0xF = 6
    · rw [if_pos m1] at h ⊢
      simp only [sliceGet_noneLt data 4 8 (by omega), none_bindM, bind_fun_noneM]
    rw [if_neg m1] at h ⊢
    by_cases m2 : cid.raw &&& 0xF = 1 ∨ cid.raw &&& 0xF = 3 ∨ cid.raw &&& 0xF = 5 ∨ cid.raw &&& 0xF = 7
    · rw [if_pos m2] at h ⊢
      simp only [getElem_noneLt data 4 (by omega), none_bindM, bind_fun_noneM]
    rw [if_neg m2] at h ⊢
    by_cases m3 : cid.raw &&& 0xF = 8
    · rw [if_pos m3] at h ⊢
      simp only [sliceGet_noneLt data 4 8 (by omega), none_bindM, bind_fun_noneM]
    rw [if_neg m3] at h ⊢
    by_cases m4 : cid.raw &&& 0xF = 9
    · rw [if_pos m4] at h ⊢
      simp only [getElem_noneLt data 7 (by omega), none_bindM, bind_fun_noneM]
    rw [if_neg m4] at h ⊢
  rw [if_neg c15] at h ⊢
  by_cases c16 : cid.raw = 0x0909
  · rw [if_pos c16] at h ⊢
    simp only [sliceGet_noneLt data 6 8 (by omega), none_bindM, bind_fun_noneM]
  rw [if_neg c16] at h ⊢
  by_cases c17 : cid.raw = 0x0E09
  · rw [if_pos c17] at h ⊢
    simp only [sliceGet_noneLt data 4 8 (by omega), none_bindM, bind_fun_noneM]
  rw [if_neg c17] at h ⊢
  by_cases c18 : cid.raw = 0x0F09
  · rw [if_pos c18] at h ⊢
    simp only [sliceGet_noneLt data 4 8 (by omega), none_bindM, bind_fun_noneM]
  rw [if_neg c18] at h ⊢
  by_cases c19 : cid.raw = 0x1009
  · rw [if_pos c19] at h ⊢
    simp only [sliceGet_noneLt data 6 8 (by omega), none_bindM, bind_fun_noneM]
  rw [if_neg c19] at h ⊢
  by_cases c20 : cid.raw = 0x1B09
  · rw [if_pos c20] at h ⊢
    simp only [sliceGet_noneLt data 4 6 (by omega), none_bindM, bind_fun_noneM]
  rw [if_neg c20] at h ⊢
  by_cases c21 : cid.raw = 0x0009
  · rw [if_pos c21] at h ⊢
    simp only [sliceGet_noneLt data 0 4 (by omega), none_bindM, bind_fun_noneM]
  rw [if_neg c21] at h ⊢
  by_cases c22 : cid.raw = 0x0109
  · rw [if_pos c22] at h ⊢
    simp only [sliceGet_noneLt data 0 4 (by omega), none_bindM, bind_fun_noneM]
  rw [if_neg c22] at h ⊢
  by_cases c23 : cid.raw = 0x0309
  · rw [if_pos c23] at h ⊢
    simp only [sliceGet_noneLt data 0 4 (by omega), none_bindM, bind_fun_noneM]
  rw [if_neg c23] at h ⊢
  by_cases c24 : cid.raw = 0x1337 ∨ cid.raw = 0x0337
  · rw [if_pos c24] at h ⊢
    simp only [parse_throttle]
    by_cases t8 : data.length = 8
    · rw [if_pos t8] at h
      omega
    rw [if_neg t8] at h ⊢
    by_cases t6 : data.length = 6
    · rw [if_pos t6] at h
      omega
    rw [if_neg t6] at h ⊢
  rw [if_neg c24] at h ⊢

end Decoder

namespace Decoder

/-- Witness for C1: the empty payload on battery identifier `0x100` decodes
to `none`. -/
theorem parse_short_payload_none_witness :
    parse_eoi_can_data ⟨.standard 0x100, []⟩ = none :=
  parse_short_payload_none ⟨.standard 0x100, []⟩ (by decide)

end Decoder
namespace Decoder

/-- `CanCollector` from `eoi-can-decoder/src/can_collector.rs`: a
`heapless::Vec<CanFrame, 100>` of latest frames plus a drop counter
(`saturating_add` never saturates in this `Nat` model). -/
structure CanCollector where
  latest_can_frames : List CanFrame
  dropped_frames : Nat
deriving DecidableEq, Repr

/-- The `heapless::Vec` capacity parameter, 100 in the source. -/
def collectorCapacity : Nat := 100

/-- `CanCollector::new`. -/
def CanCollector.new : CanCollector := ⟨[], 0⟩

/-- `CanCollector::is_can_id_in_set`. -/
def CanCollector.is_can_id_in_set (c : CanCollector) (can_id : CanId) : Bool :=
  c.latest_can_frames.any fun frame => frame.id == can_id

/-- `heapless::Vec::push` with the error ignored: appends below capacity,
drops the element when full. -/
def vecPush (l : List CanFrame) (f : CanFrame) : List CanFrame :=
  if l.length < collectorCapacity then l ++ [f] else l

/-- `CanCollector::insert`. -/
def CanCollector.insert (c : CanCollector) (frame : CanFrame) : CanCollector :=
  if c.is_can_id_in_set frame.id then
    { latest_can_frames := vecPush (c.latest_can_frames.filter fun f => f.id != frame.id) frame
      dropped_frames := c.dropped_frames + 1 }
  else if c.latest_can_frames.length = collectorCapacity then
    { latest_can_frames := vecPush (c.latest_can_frames.drop 1) frame
      dropped_frames := c.dropped_frames + 1 }
  else
    { latest_can_frames := vecPush c.latest_can_frames frame
      dropped_frames := c.dropped_frames }

/-- `CanCollector::clear`. -/
def CanCollector.clear (_ : CanCollector) : CanCollector := ⟨[], 0⟩

/-- A client-visible operation on the collector. -/
inductive CollectorOp where
  | insert (f : CanFrame) : CollectorOp
  | clear : CollectorOp

/-- Run a sequence of operations. -/
def applyOps (c : CanCollector) (ops : List CollectorOp) : CanCollector :=
  ops.foldl (fun c op => match op with | .insert f => c.insert f | .clear => c.clear) c

/-- The collector's state invariant: pairwise-distinct identifiers and the
capacity bound. -/
def goodCollector (c : CanCollector) : Prop :=
  (c.latest_can_frames.map CanFrame.id).Nodup ∧
    c.latest_can_frames.length ≤ collectorCapacity

lemma filter_map_id_nodup (l : List CanFrame) (p : CanFrame → Bool)
    (h : (l.map CanFrame.id).Nodup) : ((l.filter p).map CanFrame.id).Nodup :=
  ((List.filter_sublist l).map CanFrame.id).nodup h

lemma id_not_mem_filter_ne (l : List CanFrame) (i : CanId) :
    i ∉ (l.filter fun f => f.id != i).map CanFrame.id := by
  intro hmem
  rcases List.mem_map.mp hmem with ⟨g, hg, hgid⟩
  rcases List.mem_filter.mp hg with ⟨-, hne⟩
  exact absurd hgid (bne_iff_ne.mp hne)

lemma filter_length_lt (l : List CanFrame) (x : CanFrame) (p : CanFrame → Bool)
    (hx : x ∈ l) (hpx : p x = false) : (l.filter p).length < l.length := by
  induction l with
  | nil => cases hx
  | cons a t ih =>
    rcases List.mem_cons.mp hx with rfl | hx'
    · have := List.length_filter_le p t
      simp [List.filter_cons, hpx]
      omega
    · have := ih hx'
      by_cases hpa : p a
      · simp [List.filter_cons, hpa]
        omega
      · simp only [Bool.not_eq_true] at hpa
        simp [List.filter_cons, hpa]
        omega

lemma insert_good (c : CanCollector) (frame : CanFrame) (h : goodCollector c) :
    goodCollector (c.insert frame) := by
  obtain ⟨hnodup, hlen⟩ := h
  unfold CanCollector.insert
  split_ifs with h1 h2
  · -- duplicate-id branch
    have hfil := filter_map_id_nodup c.latest_can_frames (fun f => f.id != frame.id) hnodup
    have hnm := id_not_mem_filter_ne c.latest_can_frames frame.id
    have hflen := List.length_filter_le (fun f => f.id != frame.id) c.latest_can_frames
    constructor
    · unfold vecPush
      split_ifs with hsp
      · simp only [List.map_append, List.map_cons, List.map_nil]
        exact List.Nodup.append hfil (List.nodup_singleton _)
          (by simpa [List.disjoint_singleton] using hnm)
      · exact hfil
    · unfold vecPush
      split_ifs with hsp <;> simp <;> omega
  · -- capacity eviction branch
    have hdrop : ((c.latest_can_frames.drop 1).map CanFrame.id).Nodup :=
      ((List.drop_sublist 1 c.latest_can_frames).map CanFrame.id).nodup hnodup
    have hnm : frame.id ∉ (c.latest_can_frames.drop 1).map CanFrame.id := by
      intro hmem
      rcases List.mem_map.mp hmem with ⟨g, hg, hgid⟩
      refine h1 ?_
      simp only [CanCollector.is_can_id_in_set, List.any_eq_true]
      exact ⟨g, (List.drop_sublist 1 _).mem hg, by simp [hgid]⟩
    constructor
    · unfold vecPush
      split_ifs with hsp
      · simp only [List.map_append, List.map_cons, List.map_nil]
        exact List.Nodup.append hdrop (List.nodup_singleton _)
          (by simpa [List.disjoint_singleton] using hnm)
      · exact hdrop
    · have := List.length_drop 1 c.latest_can_frames
      unfold vecPush
      split_ifs with hsp <;> simp <;> omega
  · -- fresh, not full
    have hnm : frame.id ∉ c.latest_can_frames.map CanFrame.id := by
      intro hmem
      rcases List.mem_map.mp hmem with ⟨g, hg, hgid⟩
      refine h1 ?_
      simp only [CanCollector.is_can_id_in_set, List.any_eq_true]
      exact ⟨g, hg, by simp [hgid]⟩
    constructor
    · unfold vecPush
      split_ifs with hsp
      · simp only [List.map_append, List.map_cons, List.map_nil]
        exact List.Nodup.append hnodup (List.nodup_singleton _)
          (by simpa [List.disjoint_singleton] using hnm)
      · exact hnodup
    · unfold vecPush
      split_ifs with hsp <;> simp <;> omega

lemma applyOps_good (ops : List CollectorOp) (c : CanCollector) (h : goodCollector c) :
    goodCollector (applyOps c ops) := by
  induction ops generalizing c with
  | nil => exact h
  | cons op rest ih =>
    cases op with
    | insert f => exact ih _ (insert_good c f h)
    | clear => exact ih _ ⟨List.nodup_nil, by simp [CanCollector.clear, collectorCapacity]⟩

lemma new_good : goodCollector CanCollector.new :=
  ⟨List.nodup_nil, by simp [CanCollector.new, collectorCapacity]⟩

end Decoder

namespace Decoder

lemma filter_ne_length (i : CanId) :
    ∀ l : List CanFrame, (l.map CanFrame.id).Nodup →
      (∃ x ∈ l, x.id = i) →
      (l.filter fun f => f.id != i).length + 1 = l.length := by
  intro l
  induction l with
  | nil =>
    rintro - ⟨x, hx, -⟩
    cases hx
  | cons a t ih =>
    rintro hn ⟨x, hx, hxi⟩
    simp only [List.map_cons, List.nodup_cons] at hn
    obtain ⟨ha, ht⟩ := hn
    rcases List.mem_cons.mp hx with rfl | hx'
    · have htfil : t.filter (fun f => f.id != i) = t := by
        rw [List.filter_eq_self]
        intro g hg
        refine bne_iff_ne.mpr fun hgi => ha ?_
        exact List.mem_map.mpr ⟨g, hg, by rw [hgi, hxi]⟩
      have hxfalse : (x.id != i) = false := by simp [hxi]
      simp [List.filter_cons, hxfalse, htfil]
    · have hai : a.id ≠ i := fun hcontra =>
        ha (List.mem_map.mpr ⟨x, hx', by rw [hxi, hcontra]⟩)
      have htrue : (a.id != i) = true := bne_iff_ne.mpr hai
      have := ih ht ⟨x, hx', hxi⟩
      simp [List.filter_cons, htrue]
      omega

/-- C3: the collector keeps at most one frame per identifier after every
sequence of inserts and clears; inserting a frame whose identifier is
already present replaces the stored frame — the new frame is the one
retrievable for that identifier, the entry count is unchanged — and
increments `dropped_frames` by exactly one. -/
theorem collector_dedup (ops : List CollectorOp) (c : CanCollector) (frame : CanFrame)
    (hc : goodCollector c) (hin : c.is_can_id_in_set frame.id = true) :
    ((applyOps CanCollector.new ops).latest_can_frames.map CanFrame.id).Nodup ∧
    (c.insert frame).dropped_frames = c.dropped_frames + 1 ∧
    (c.insert frame).latest_can_frames.filter (fun f => f.id == frame.id) = [frame] ∧
    (c.insert frame).latest_can_frames.length = c.latest_can_frames.length := by
  obtain ⟨hnodup, hlen⟩ := hc
  obtain ⟨x, hxmem, hxid⟩ := List.any_eq_true.mp hin
  have hxeq : x.id = frame.id := beq_iff_eq.mp hxid
  have hflen := filter_ne_length frame.id c.latest_can_frames hnodup ⟨x, hxmem, hxeq⟩
  have hpush : vecPush (c.latest_can_frames.filter fun f => f.id != frame.id) frame
      = (c.latest_can_frames.filter fun f => f.id != frame.id) ++ [frame] := by
    unfold vecPush
    rw [if_pos]
    unfold collectorCapacity at hlen ⊢
    omega
  refine ⟨(applyOps_good ops _ new_good).1, ?_, ?_, ?_⟩
  · simp [CanCollector.insert, hin]
  · simp only [CanCollector.insert]
    rw [if_pos hin]
    simp only [hpush, List.filter_append]
    have h1 : (c.latest_can_frames.filter fun f => f.id != frame.id).filter
        (fun f => f.id == frame.id) = [] := by
      rw [List.filter_eq_nil_iff]
      intro g hg
      rcases List.mem_filter.mp hg with ⟨-, hne⟩
      simp only [bne_iff_ne] at hne
      simp [hne]
    rw [h1]
    simp
  · simp only [CanCollector.insert]
    rw [if_pos hin]
    rw [hpush]
    simp only [List.length_append, List.length_cons, List.length_nil]
    omega

/-- Witness for C3: a two-frame collector where the second insert
supersedes the first. -/
theorem collector_dedup_witness :
    ((applyOps CanCollector.new []).latest_can_frames.map CanFrame.id).Nodup ∧
    (CanCollector.insert ⟨[⟨.standard 5, [1]⟩], 0⟩ ⟨.standard 5, [2]⟩).dropped_frames = 0 + 1 ∧
    (CanCollector.insert ⟨[⟨.standard 5, [1]⟩], 0⟩ ⟨.standard 5, [2]⟩).latest_can_frames.filter
      (fun f => f.id == CanId.standard 5) = [⟨.standard 5, [2]⟩] ∧
    (CanCollector.insert ⟨[⟨.standard 5, [1]⟩], 0⟩ ⟨.standard 5, [2]⟩).latest_can_frames.length =
      ([⟨.standard 5, [1]⟩] : List CanFrame).length :=
  collector_dedup [] ⟨[⟨.standard 5, [1]⟩], 0⟩ ⟨.standard 5, [2]⟩
    (by constructor <;> simp [collectorCapacity]) (by decide)

end Decoder

namespace Decoder

lemma applyOps_append (c : CanCollector) (a b : List CollectorOp) :
    applyOps c (a ++ b) = applyOps (applyOps c a) b := by
  simp [applyOps, List.foldl_append]

lemma applyOps_fresh :
    ∀ (frames : List CanFrame) (c : CanCollector),
      (∀ f ∈ frames, c.is_can_id_in_set f.id = false) →
      (frames.map CanFrame.id).Nodup →
      c.latest_can_frames.length + frames.length ≤ collectorCapacity →
      applyOps c (frames.map CollectorOp.insert) =
        ⟨c.latest_can_frames ++ frames, c.dropped_frames⟩ := by
  intro frames
  induction frames with
  | nil =>
    intro c _ _ _
    simp [applyOps]
  | cons f rest ih =>
    intro c hfresh hnodup hlen
    simp only [List.map_cons, List.nodup_cons] at hnodup
    simp only [List.length_cons] at hlen
    have hstep : c.insert f = ⟨c.latest_can_frames ++ [f], c.dropped_frames⟩ := by
      unfold CanCollector.insert
      rw [if_neg (by simp [hfresh f (List.mem_cons_self f rest)]),
        if_neg (by unfold collectorCapacity at hlen ⊢; omega)]
      unfold vecPush
      rw [if_pos (by unfold collectorCapacity at hlen ⊢; omega)]
    have hfresh2 : ∀ g ∈ rest,
        CanCollector.is_can_id_in_set ⟨c.latest_can_frames ++ [f], c.dropped_frames⟩ g.id
          = false := by
      intro g hg
      have h1 : c.is_can_id_in_set g.id = false := hfresh g (List.mem_cons_of_mem f hg)
      have h2 : f.id ≠ g.id := fun hc => hnodup.1 (List.mem_map.mpr ⟨g, hg, hc.symm⟩)
      simp only [CanCollector.is_can_id_in_set] at h1 ⊢
      simp [List.any_append, h1, h2]
    have hrec := ih ⟨c.latest_can_frames ++ [f], c.dropped_frames⟩ hfresh2 hnodup.2
      (by simp only [List.length_append, List.length_cons, List.length_nil]; omega)
    have hfold : applyOps c ((f :: rest).map CollectorOp.insert) =
        applyOps (c.insert f) (rest.map CollectorOp.insert) := rfl
    rw [hfold, hstep, hrec]
    simp

/-- C4: the collector never exceeds its fixed capacity; inserting a frame
with a fresh identifier into a full collector evicts exactly the entry at
the front of the queue (the oldest-inserted, FIFO) and increments
`dropped_frames`; inserting `capacity + 1` frames with pairwise-distinct
identifiers into an empty collector leaves exactly `capacity` entries and a
positive drop count. -/
theorem collector_capacity_fifo :
    (∀ ops : List CollectorOp,
      (applyOps CanCollector.new ops).latest_can_frames.length ≤ collectorCapacity) ∧
    (∀ (c : CanCollector) (frame : CanFrame),
      c.latest_can_frames.length = collectorCapacity →
      c.is_can_id_in_set frame.id = false →
      (c.insert frame).latest_can_frames = c.latest_can_frames.drop 1 ++ [frame] ∧
      (c.insert frame).dropped_frames = c.dropped_frames + 1) ∧
    (∀ frames : List CanFrame, frames.length = collectorCapacity + 1 →
      (frames.map CanFrame.id).Nodup →
      (applyOps CanCollector.new (frames.map CollectorOp.insert)).latest_can_frames.length
          = collectorCapacity ∧
      1 ≤ (applyOps CanCollector.new (frames.map CollectorOp.insert)).dropped_frames) := by
  refine ⟨fun ops => (applyOps_good ops _ new_good).2, ?_, ?_⟩
  · intro c frame hfull hfresh
    unfold CanCollector.insert
    rw [if_neg (by simp [hfresh]), if_pos hfull]
    refine ⟨?_, rfl⟩
    unfold vecPush
    rw [if_pos]
    rw [List.length_drop]
    unfold collectorCapacity at hfull ⊢
    omega
  · intro frames hlen hnodup
    have hdlen : (frames.drop collectorCapacity).length = 1 := by
      rw [List.length_drop]
      omega
    obtain ⟨x, hx⟩ := List.length_eq_one.mp hdlen
    have hsplit : frames.take collectorCapacity ++ [x] = frames := by
      rw [← hx]
      exact List.take_append_drop _ _
    have hl1len : (frames.take collectorCapacity).length = collectorCapacity := by
      rw [List.length_take]
      omega
    have hnodup2 : ((frames.take collectorCapacity ++ [x]).map CanFrame.id).Nodup := by
      rw [hsplit]
      exact hnodup
    rw [List.map_append, List.nodup_append] at hnodup2
    have hx_notin : x.id ∉ (frames.take collectorCapacity).map CanFrame.id := by
      intro hmem
      exact hnodup2.2.2 hmem (by simp)
    have h1 : applyOps CanCollector.new ((frames.take collectorCapacity).map
        CollectorOp.insert) = ⟨frames.take collectorCapacity, 0⟩ := by
      have := applyOps_fresh (frames.take collectorCapacity) CanCollector.new
        (fun f _ => by simp [CanCollector.is_can_id_in_set, CanCollector.new])
        hnodup2.1 (by simp [CanCollector.new])
      simpa [CanCollector.new] using this
    have hfold : applyOps CanCollector.new (frames.map CollectorOp.insert) =
        applyOps ⟨frames.take collectorCapacity, 0⟩ ([x].map CollectorOp.insert) := by
      rw [← h1, ← applyOps_append, ← List.map_append, hsplit]
    rw [hfold]
    have hnotin : CanCollector.is_can_id_in_set ⟨frames.take collectorCapacity, 0⟩ x.id
        = false := by
      rw [Bool.eq_false_iff]
      intro hcontra
      obtain ⟨g, hg, hgid⟩ := List.any_eq_true.mp hcontra
      exact hx_notin (List.mem_map.mpr ⟨g, hg, beq_iff_eq.mp hgid⟩)
    have hstep : applyOps ⟨frames.take collectorCapacity, 0⟩ ([x].map CollectorOp.insert) =
        CanCollector.insert ⟨frames.take collectorCapacity, 0⟩ x := rfl
    rw [hstep]
    unfold CanCollector.insert
    rw [if_neg (by simp [hnotin]), if_pos hl1len]
    constructor
    · unfold vecPush
      dsimp only
      rw [if_pos (by rw [List.length_drop]; unfold collectorCapacity at hl1len ⊢; omega)]
      simp only [List.length_append, List.length_drop, List.length_cons, List.length_nil]
      unfold collectorCapacity at hl1len ⊢
      omega
    · simp

/-- Witness for C4: instantiates the FIFO-eviction clause on a full
single-slot-of-attention example — a collector holding 100 distinct
standard identifiers, receiving identifier 100. -/
theorem collector_capacity_fifo_witness :
    (CanCollector.insert
        ⟨(List.range collectorCapacity).map (fun i => ⟨.standard i, []⟩), 7⟩
        ⟨.standard 100, []⟩).latest_can_frames =
      ((List.range collectorCapacity).map (fun i => (⟨.standard i, []⟩ : CanFrame))).drop 1
        ++ [⟨.standard 100, []⟩] ∧
    (CanCollector.insert
        ⟨(List.range collectorCapacity).map (fun i => ⟨.standard i, []⟩), 7⟩
        ⟨.standard 100, []⟩).dropped_frames = 7 + 1 :=
  collector_capacity_fifo.2.1
    ⟨(List.range collectorCapacity).map (fun i => ⟨.standard i, []⟩), 7⟩
    ⟨.standard 100, []⟩ (by simp [collectorCapacity]) (by decide)

end Decoder
namespace Display

/-- An `f32` value as the display crate manipulates it: either NaN or an
exact rational. IEEE-754 addition and multiplication propagate NaN
unconditionally, which this model mirrors; finite arithmetic is idealized
as exact. -/
inductive EF where
  | nan : EF
  | val (q : ℚ) : EF
deriving DecidableEq, Repr

/-- IEEE-addition on the model: NaN-absorbing. -/
def EF.add : EF → EF → EF
  | .val a, .val b => .val (a + b)
  | _, _ => .nan

/-- IEEE-multiplication on the model: NaN-absorbing. -/
def EF.mul : EF → EF → EF
  | .val a, .val b => .val (a * b)
  | _, _ => .nan

instance : Add EF := ⟨EF.add⟩

instance : Mul EF := ⟨EF.mul⟩

lemma EF.nan_add (x : EF) : EF.nan + x = EF.nan := by cases x <;> rfl

lemma EF.add_nan (x : EF) : x + EF.nan = EF.nan := by cases x <;> rfl

lemma EF.nan_mul (x : EF) : EF.nan * x = EF.nan := by cases x <;> rfl

lemma EF.mul_nan (x : EF) : x * EF.nan = EF.nan := by cases x <;> rfl

/-- `DISPLAY_VALUE_TIMEOUT` from `draw-display/src/lib.rs`
(`Duration::from_secs(5)`); time is modelled as a `Nat` tick count in
seconds on a monotonic clock. -/
def DISPLAY_VALUE_TIMEOUT : Nat := 5

/-- `DisplayValue<T>` (the spec's `StaleValue<T>`): a timestamped optional
cell. Reads are parameterized by the current instant `now`; the source's
`Instant::elapsed()` is `now - last_updated`. -/
structure DisplayValue (α : Type) where
  value : Option α
  last_updated : Nat
deriving DecidableEq, Repr

/-- `DisplayValue::update`: unconditional overwrite of value and
timestamp. -/
def DisplayValue.update {α : Type} (_ : DisplayValue α) (v : α) (now : Nat) :
    DisplayValue α :=
  ⟨some v, now⟩

/-- `DisplayValue::is_valid`. -/
def DisplayValue.is_valid {α : Type} (s : DisplayValue α) (now : Nat) : Bool :=
  s.value.isSome && decide (now - s.last_updated < DISPLAY_VALUE_TIMEOUT)

/-- `DisplayValue::get`. -/
def DisplayValue.get {α : Type} (s : DisplayValue α) (now : Nat) : Option α :=
  if s.is_valid now then s.value else none

/-- `Default for DisplayValue<T>`: no value, `last_updated` stamped at
creation time. -/
def DisplayValue.mkDefault (α : Type) (creation : Nat) : DisplayValue α :=
  ⟨none, creation⟩

/-- C5: staleness semantics of the `DisplayValue` cell — `is_valid` holds
iff a value is present and the elapsed time since `last_updated` is below
the timeout; `get` is `some` exactly when `is_valid` holds; `update` then
an immediate `get` returns the stored value; once the timeout has elapsed
with no further update, `get` is `none` and `is_valid` is `false`; and a
fresh default cell always yields `none`/`false`. -/
theorem stale_value_semantics {α : Type} :
    (∀ (s : DisplayValue α) (now : Nat),
      s.is_valid now = true ↔
        s.value.isSome = true ∧ now - s.last_updated < DISPLAY_VALUE_TIMEOUT) ∧
    (∀ (s : DisplayValue α) (now : Nat),
      (s.get now).isSome = s.is_valid now) ∧
    (∀ (s : DisplayValue α) (x : α) (now : Nat),
      (s.update x now).get now = some x) ∧
    (∀ (s : DisplayValue α) (x : α) (t u : Nat),
      DISPLAY_VALUE_TIMEOUT ≤ u - t →
      (s.update x t).get u = none ∧ (s.update x t).is_valid u = false) ∧
    (∀ creation now : Nat,
      (DisplayValue.mkDefault α creation).get now = none ∧
      (DisplayValue.mkDefault α creation).is_valid now = false) := by
  refine ⟨fun s now => ?_, fun s now => ?_, fun s x now => ?_, fun s x t u h => ?_,
    fun creation now => ?_⟩
  · simp [DisplayValue.is_valid]
  · by_cases h : s.is_valid now = true
    · simp only [DisplayValue.get, if_pos h, h]
      simp only [DisplayValue.is_valid, Bool.and_eq_true] at h
      exact h.1
    · rw [DisplayValue.get, if_neg h]
      simp only [Bool.not_eq_true] at h
      simp [h]
  · simp [DisplayValue.get, DisplayValue.is_valid, DisplayValue.update,
      DISPLAY_VALUE_TIMEOUT]
  · have hv : (s.update x t).is_valid u = false := by
      simp only [DisplayValue.update, DisplayValue.is_valid, Option.isSome_some,
        Bool.true_and, decide_eq_false_iff_not, not_lt]
      exact h
    exact ⟨by simp [DisplayValue.get, hv], hv⟩
  · have hv : (DisplayValue.mkDefault α creation).is_valid now = false := by
      simp [DisplayValue.mkDefault, DisplayValue.is_valid]
    exact ⟨by simp [DisplayValue.get, hv], hv⟩

/-- Witness for C5: the update-then-expire clause at concrete instants 0
and 5 over `Nat`-valued cells. -/
theorem stale_value_semantics_witness :
    (DisplayValue.update ⟨none, 0⟩ (42 : Nat) 0).get 5 = none ∧
    (DisplayValue.update ⟨none, 0⟩ (42 : Nat) 0).is_valid 5 = false :=
  (stale_value_semantics.2.2.2.1) ⟨none, 0⟩ 42 0 5 (by decide)

end Display
namespace Display

/-- Modelled from the spec: `BatteryState` of the decoder version the
display crate links against is absent from `src/`; the display only stores
it and compares against `On`/`Unknown`. -/
inductive BatteryState where
  | on | unknown | other
deriving DecidableEq, Repr

/-- Modelled from the spec: `ChargeState` (see `BatteryState`). -/
inductive ChargeState where
  | fetOn | unknown | other
deriving DecidableEq, Repr

/-- Modelled from the spec: `DischargeState` (see `BatteryState`). -/
inductive DischargeState where
  | on | unknown | other
deriving DecidableEq, Repr

/-- Modelled from the spec: the packed throttle error-flag byte as a record
the display stores opaquely. -/
structure ThrottleErrors where
  bits : Nat
deriving DecidableEq, Repr

/-- Modelled from the spec: the throttle status record consumed by the
display (`value` plus the packed `error` flags). -/
structure ThrottleStatus where
  value : EF
  error : ThrottleErrors
deriving DecidableEq, Repr

/-- Modelled from the spec: the throttle configuration record; ingestion
ignores it, so only the control-type byte is carried. -/
structure ThrottleConfig where
  control_type : Nat
deriving DecidableEq, Repr

/-- Modelled from the spec: throttle messages as consumed by the display
crate (duty-cycle/current/rpm commands, status, configuration). -/
inductive ThrottleData where
  | toVescDutyCycle (x : EF) : ThrottleData
  | toVescCurrent (x : EF) : ThrottleData
  | toVescRpm (x : EF) : ThrottleData
  | status (s : ThrottleStatus) : ThrottleData
  | config (c : ThrottleConfig) : ThrottleData
deriving DecidableEq, Repr

/-- Modelled from the spec: per-channel MPPT power sample
(`voltage_in`/`current_in`). -/
structure MpptChannelPower where
  voltage_in : EF
  current_in : EF
deriving DecidableEq, Repr

/-- Modelled from the spec: a channel sub-message — power sample or the
duty-cycle/state message the display ignores. -/
inductive MpptChannel where
  | power (p : MpptChannelPower) : MpptChannel
  | state : MpptChannel
deriving DecidableEq, Repr

/-- Modelled from the spec: the info-field union per MPPT controller —
one of four channels, or the aggregate power/status fields the display
ignores. -/
inductive MpptInfo where
  | channel0 (c : MpptChannel) : MpptInfo
  | channel1 (c : MpptChannel) : MpptInfo
  | channel2 (c : MpptChannel) : MpptInfo
  | channel3 (c : MpptChannel) : MpptInfo
  | other : MpptInfo
deriving DecidableEq, Repr

/-- Modelled from the spec: the decoded MPPT message tagged by the 3-bit
controller address (8 possible ids). -/
inductive MpptData where
  | id0 (i : MpptInfo) : MpptData
  | id1 (i : MpptInfo) : MpptData
  | id2 (i : MpptInfo) : MpptData
  | id3 (i : MpptInfo) : MpptData
  | id4 (i : MpptInfo) : MpptData
  | id5 (i : MpptInfo) : MpptData
  | id6 (i : MpptInfo) : MpptData
  | id7 (i : MpptInfo) : MpptData
deriving DecidableEq, Repr

/-- `PackAndPerriCurrent` as consumed by the display. -/
structure PackAndPerriCurrent where
  pack_current : EF
  perri_current : EF
deriving DecidableEq, Repr

/-- `ChargeAndDischargeCurrent` as consumed by the display. -/
structure ChargeAndDischargeCurrent where
  discharge_current : EF
  charge_current : EF
deriving DecidableEq, Repr

/-- `SocErrorFlagsAndBalancing` as consumed by the display. -/
structure SocErrorFlagsAndBalancing where
  state_of_charge : EF
  error_flags : Nat
  balancing_status : Nat
deriving DecidableEq, Repr

/-- `FourCellVoltages` as consumed by the display. -/
structure FourCellVoltages where
  cell_voltage : List EF
deriving DecidableEq, Repr

/-- `CellVoltages13_14PackAndStack` as consumed by the display. -/
structure CellVoltages13_14PackAndStack where
  cell_voltage : List EF
  pack_voltage : EF
  stack_voltage : EF
deriving DecidableEq, Repr

/-- Modelled from the spec: `TemperaturesAndStates` in the display-side
decoder carries typed battery/charge/discharge states. -/
structure TemperaturesAndStates where
  temperatures : List Int
  ic_temperature : Int
  battery_state : BatteryState
  charge_state : ChargeState
  discharge_state : DischargeState
deriving DecidableEq, Repr

/-- `BatteryUptime` as consumed by the display. -/
structure BatteryUptime where
  uptime_ms : Nat
deriving DecidableEq, Repr

/-- `EoiBattery` as consumed by the display. -/
inductive EoiBattery where
  | packAndPerriCurrent (d : PackAndPerriCurrent) : EoiBattery
  | chargeAndDischargeCurrent (d : ChargeAndDischargeCurrent) : EoiBattery
  | socErrorFlagsAndBalancing (d : SocErrorFlagsAndBalancing) : EoiBattery
  | cellVoltages1_4 (d : FourCellVoltages) : EoiBattery
  | cellVoltages5_8 (d : FourCellVoltages) : EoiBattery
  | cellVoltages9_12 (d : FourCellVoltages) : EoiBattery
  | cellVoltages13_14PackAndStack (d : CellVoltages13_14PackAndStack) : EoiBattery
  | temperaturesAndStates (d : TemperaturesAndStates) : EoiBattery
  | batteryUptime (d : BatteryUptime) : EoiBattery
deriving DecidableEq, Repr

/-- `GnssStatus` as consumed by the display. -/
structure GnssStatus where
  fix : Nat
  sats : Nat
  sats_used : Nat
deriving DecidableEq, Repr

/-- `GnssDateTime` as consumed by the display. -/
structure GnssDateTime where
  year : Nat
  month : Nat
  day : Nat
  hours : Nat
  minutes : Nat
  seconds : Nat
deriving DecidableEq, Repr

/-- `GnssData` as consumed by the display. -/
inductive GnssData where
  | gnssStatus (s : GnssStatus) : GnssData
  | gnssSpeedAndHeading (speed heading : EF) : GnssData
  | gnssLatitude (x : EF) : GnssData
  | gnssLongitude (x : EF) : GnssData
  | gnssDateTime (d : GnssDateTime) : GnssData
deriving DecidableEq, Repr

/-- `VescData` as consumed by the display. -/
inductive VescData where
  | statusMessage1 (rpm : Int) (total_current duty_cycle : EF) : VescData
  | statusMessage2 (amp_hours_used amp_hours_generated : EF) : VescData
  | statusMessage3 (watt_hours_used watt_hours_generated : EF) : VescData
  | statusMessage4 (fet_temp motor_temp total_input_current current_pid_position : EF) : VescData
  | statusMessage5 (input_voltage : EF) (tachometer : Int) : VescData
deriving DecidableEq, Repr

/-- `EoiCanData` as consumed by the display. -/
inductive EoiCanData where
  | eoiBattery (b : EoiBattery) : EoiCanData
  | vesc (v : VescData) : EoiCanData
  | throttle (t : ThrottleData) : EoiCanData
  | mppt (m : MpptData) : EoiCanData
  | gnss (g : GnssData) : EoiCanData
deriving DecidableEq, Repr

end Display
namespace Display

/-- `DisplayData` from `draw-display/src/lib.rs`: the telemetry snapshot —
a flat record of independently-aging `DisplayValue` cells (fixed-size Rust
arrays become lists of the same length). -/
structure DisplayData where
  speed_kmh : DisplayValue EF
  gnss_fix : DisplayValue Bool
  battery_state_of_charge : DisplayValue EF
  battery_time_to_empty : DisplayValue Nat
  battery_cell_voltages : List (DisplayValue EF)
  battery_current_pack : DisplayValue EF
  battery_current_in : DisplayValue EF
  battery_current_out_motor : DisplayValue EF
  battery_current_out_peripherals : DisplayValue EF
  battery_voltage : DisplayValue EF
  battery_temperatures : List (DisplayValue Int)
  battery_uptime_ms : DisplayValue Nat
  battery_error_flags : DisplayValue Nat
  battery_balancing_status : DisplayValue Nat
  battery_state : DisplayValue BatteryState
  battery_charge_state : DisplayValue ChargeState
  battery_discharge_state : DisplayValue DischargeState
  motor_battery_voltage : DisplayValue EF
  motor_battery_current : DisplayValue EF
  motor_current : DisplayValue EF
  motor_duty_cycle : DisplayValue EF
  motor_rpm : DisplayValue Int
  motor_fet_temperature : DisplayValue EF
  motor_temperature : DisplayValue EF
  throttle_value : DisplayValue EF
  throttle_errors : DisplayValue ThrottleErrors
  mppt_panel_info : List (DisplayValue (EF × EF × EF))
  charging_disabled : DisplayValue Bool
  time : DisplayValue GnssDateTime
  ip_address : DisplayValue Nat
  display_state_of_charge : DisplayValue EF
  display_is_charging : DisplayValue Bool
deriving DecidableEq, Repr

/-- In-place `array[i].update(v)`: `update` discards the previous cell, so
the effect is `List.set` with a freshly stamped cell. -/
def listUpdateAt {β : Type} (l : List (DisplayValue β)) (i : Nat) (v : β)
    (now : Nat) : List (DisplayValue β) :=
  l.set i ⟨some v, now⟩

/-- The loop body of `DisplayData::update_cell_voltages` (and of the
temperature loop): update consecutive cells starting at `offset`. -/
def updateRange {β : Type} (l : List (DisplayValue β)) (offset : Nat)
    (values : List β) (now : Nat) : List (DisplayValue β) :=
  match values with
  | [] => l
  | v :: vs => updateRange (listUpdateAt l offset v now) (offset + 1) vs now

/-- `DisplayData::update_cell_voltages`. -/
def DisplayData.update_cell_voltages (d : DisplayData) (offset : Nat)
    (values : List EF) (now : Nat) : DisplayData :=
  { d with battery_cell_voltages := updateRange d.battery_cell_voltages offset values now }

/-- The MPPT arm's panel update:
`self.mppt_panel_info[panel_id].update((v*c, v, c))`. -/
def DisplayData.setPanel (d : DisplayData) (panel_id : Nat) (p : MpptChannelPower)
    (now : Nat) : DisplayData :=
  { d with
      mppt_panel_info :=
        listUpdateAt d.mppt_panel_info panel_id
          (p.voltage_in * p.current_in, p.voltage_in, p.current_in) now }

/-- `DisplayData::ingest_eoi_can_data`, arm for arm from the source; reads
of the wall clock (`Instant::now()` inside `DisplayValue::update`) are the
explicit `now` parameter. -/
def DisplayData.ingest_eoi_can_data (d : DisplayData) (data : EoiCanData)
    (now : Nat) : DisplayData :=
  match data with
  | .eoiBattery eoi_battery =>
    match eoi_battery with
    | .chargeAndDischargeCurrent dd =>
      { d with battery_current_in := d.battery_current_in.update dd.charge_current now
               battery_current_out_motor :=
                 d.battery_current_out_motor.update dd.discharge_current now }
    | .socErrorFlagsAndBalancing dd =>
      { d with battery_state_of_charge :=
                 d.battery_state_of_charge.update dd.state_of_charge now
               battery_error_flags := d.battery_error_flags.update dd.error_flags now
               battery_balancing_status :=
                 d.battery_balancing_status.update dd.balancing_status now }
    | .packAndPerriCurrent dd =>
      { d with battery_current_out_peripherals :=
                 d.battery_current_out_peripherals.update dd.perri_current now
               battery_current_pack := d.battery_current_pack.update dd.pack_current now }
    | .cellVoltages1_4 dd => d.update_cell_voltages 0 dd.cell_voltage now
    | .cellVoltages5_8 dd => d.update_cell_voltages 4 dd.cell_voltage now
    | .cellVoltages9_12 dd => d.update_cell_voltages 8 dd.cell_voltage now
    | .cellVoltages13_14PackAndStack dd =>
      { (d.update_cell_voltages 12 dd.cell_voltage now) with
          battery_voltage := d.battery_voltage.update dd.pack_voltage now }
    | .temperaturesAndStates dd =>
      { d with battery_temperatures :=
                 updateRange d.battery_temperatures 0 dd.temperatures now
               battery_state := d.battery_state.update dd.battery_state now
               battery_charge_state := d.battery_charge_state.update dd.charge_state now
               battery_discharge_state :=
                 d.battery_discharge_state.update dd.discharge_state now }
    | .batteryUptime dd =>
      { d with battery_uptime_ms := d.battery_uptime_ms.update dd.uptime_ms now }
  | .throttle throttle =>
    match throttle with
    | .status s =>
      { d with throttle_value := d.throttle_value.update s.value now
               throttle_errors := d.throttle_errors.update s.error now }
    | _ => d
  | .vesc vesc =>
    match vesc with
    | .statusMessage1 rpm total_current duty_cycle =>
      { d with motor_rpm := d.motor_rpm.update rpm now
               motor_current := d.motor_current.update total_current now
               motor_duty_cycle := d.motor_duty_cycle.update duty_cycle now }
    | .statusMessage4 fet_temp motor_temp total_input_current _ =>
      { d with motor_battery_current :=
                 d.motor_battery_current.update total_input_current now
               motor_fet_temperature := d.motor_fet_temperature.update fet_temp now
               motor_temperature := d.motor_temperature.update motor_temp now }
    | .statusMessage5 input_voltage _ =>
      { d with motor_battery_voltage := d.motor_battery_voltage.update input_voltage now }
    | _ => d
  | .mppt mppt_data =>
    match mppt_data with
    | .id2 (.channel1 (.power p)) => d.setPanel 0 p now
    | .id2 (.channel2 (.power p)) => d.setPanel 1 p now
    | .id2 (.channel3 (.power p)) => d.setPanel 2 p now
    | .id5 (.channel0 (.power p)) => d.setPanel 3 p now
    | .id5 (.channel1 (.power p)) => d.setPanel 4 p now
    | .id5 (.channel2 (.power p)) => d.setPanel 5 p now
    | .id4 (.channel1 (.power p)) => d.setPanel 6 p now
    | .id4 (.channel2 (.power p)) => d.setPanel 7 p now
    | .id6 (.channel0 (.power p)) => d.setPanel 8 p now
    | .id6 (.channel1 (.power p)) => d.setPanel 9 p now
    | .id6 (.channel2 (.power p)) => d.setPanel 10 p now
    | _ => d
  | .gnss gnss =>
    match gnss with
    | .gnssSpeedAndHeading speed _ =>
      { d with speed_kmh := d.speed_kmh.update speed now }
    | .gnssDateTime dd => { d with time := d.time.update dd now }
    | .gnssStatus dd => { d with gnss_fix := d.gnss_fix.update (dd.fix != 0) now }
    | .gnssLatitude _ => d
    | .gnssLongitude _ => d

end Display
namespace Display

/-- The net-power computation of `draw_display` (it is not a snapshot
field): each factor is read through `get()` and replaced by `f32::NAN`
when stale or absent, then
`(current_in + current_out_motor + current_out_peripherals) * voltage`. -/
def rendered_net_power (d : DisplayData) (now : Nat) : EF :=
  let voltage := (d.battery_voltage.get now).getD EF.nan
  let current := ((d.battery_current_in.get now).getD EF.nan) +
    ((d.battery_current_out_motor.get now).getD EF.nan) +
    ((d.battery_current_out_peripherals.get now).getD EF.nan)
  voltage * current

/-- C8: the rendered net power is computed at render time from the four
input cells (`rendered_net_power` mirrors the `draw_display` code), and
whenever any of the four inputs reads as stale or absent (`get()` is
`none`) the displayed net power is NaN. -/
theorem net_power_nan_poisoning (d : DisplayData) (now : Nat)
    (h : d.battery_voltage.get now = none ∨
      d.battery_current_in.get now = none ∨
      d.battery_current_out_motor.get now = none ∨
      d.battery_current_out_peripherals.get now = none) :
    rendered_net_power d now = EF.nan := by
  unfold rendered_net_power
  rcases h with h | h | h | h <;>
    rw [h] <;>
    simp [EF.nan_add, EF.add_nan, EF.nan_mul, EF.mul_nan]

/-- A fresh snapshot, as produced by `DisplayData::default()` at creation
instant `t`: every cell empty, arrays at their fixed lengths. -/
def DisplayData.mkDefault (t : Nat) : DisplayData where
  speed_kmh := ⟨none, t⟩
  gnss_fix := ⟨none, t⟩
  battery_state_of_charge := ⟨none, t⟩
  battery_time_to_empty := ⟨none, t⟩
  battery_cell_voltages := List.replicate 14 ⟨none, t⟩
  battery_current_pack := ⟨none, t⟩
  battery_current_in := ⟨none, t⟩
  battery_current_out_motor := ⟨none, t⟩
  battery_current_out_peripherals := ⟨none, t⟩
  battery_voltage := ⟨none, t⟩
  battery_temperatures := List.replicate 4 ⟨none, t⟩
  battery_uptime_ms := ⟨none, t⟩
  battery_error_flags := ⟨none, t⟩
  battery_balancing_status := ⟨none, t⟩
  battery_state := ⟨none, t⟩
  battery_charge_state := ⟨none, t⟩
  battery_discharge_state := ⟨none, t⟩
  motor_battery_voltage := ⟨none, t⟩
  motor_battery_current := ⟨none, t⟩
  motor_current := ⟨none, t⟩
  motor_duty_cycle := ⟨none, t⟩
  motor_rpm := ⟨none, t⟩
  motor_fet_temperature := ⟨none, t⟩
  motor_temperature := ⟨none, t⟩
  throttle_value := ⟨none, t⟩
  throttle_errors := ⟨none, t⟩
  mppt_panel_info := List.replicate 11 ⟨none, t⟩
  charging_disabled := ⟨none, t⟩
  time := ⟨none, t⟩
  ip_address := ⟨none, t⟩
  display_state_of_charge := ⟨none, t⟩
  display_is_charging := ⟨none, t⟩

/-- Witness for C8: on a fresh snapshot all inputs are absent and the
rendered net power is NaN. -/
theorem net_power_nan_poisoning_witness :
    rendered_net_power (DisplayData.mkDefault 0) 0 = EF.nan :=
  net_power_nan_poisoning (DisplayData.mkDefault 0) 0 (Or.inl rfl)

/-- The `(mppt_id, channel) → panel index` lookup table that the MPPT arm
of `ingest_eoi_can_data` encodes. -/
def panel_index (m c : Nat) : Option Nat :=
  match m, c with
  | 2, 1 => some 0
  | 2, 2 => some 1
  | 2, 3 => some 2
  | 5, 0 => some 3
  | 5, 1 => some 4
  | 5, 2 => some 5
  | 4, 1 => some 6
  | 4, 2 => some 7
  | 6, 0 => some 8
  | 6, 1 => some 9
  | 6, 2 => some 10
  | _, _ => none

/-- Build the channel info variant for a channel number below 4. -/
def mpptChannelOf (c : Nat) (ch : MpptChannel) : MpptInfo :=
  match c with
  | 0 => .channel0 ch
  | 1 => .channel1 ch
  | 2 => .channel2 ch
  | 3 => .channel3 ch
  | _ => .other

/-- Build the MPPT message variant for a controller id below 8. -/
def mpptDataOf (m : Nat) (i : MpptInfo) : MpptData :=
  match m with
  | 0 => .id0 i
  | 1 => .id1 i
  | 2 => .id2 i
  | 3 => .id3 i
  | 4 => .id4 i
  | 5 => .id5 i
  | 6 => .id6 i
  | _ => .id7 i

/-- C9: for every `(mppt_id, channel)` pair, ingesting a decoded MPPT
channel-power message updates exactly the panel index mapped by the lookup
table with the triple `(voltage_in * current_in, voltage_in, current_in)`
and leaves every other snapshot field unchanged; pairs outside the table
leave the whole snapshot unchanged. -/
theorem mppt_panel_mapping (d : DisplayData) (now : Nat) (m c : Nat)
    (hm : m < 8) (hc : c < 4) (v cur : EF) :
    (match panel_index m c with
     | some i =>
        d.ingest_eoi_can_data (.mppt (mpptDataOf m (mpptChannelOf c (.power ⟨v, cur⟩)))) now =
          { d with mppt_panel_info := d.mppt_panel_info.set i ⟨some (v * cur, v, cur), now⟩ }
     | none =>
        d.ingest_eoi_can_data (.mppt (mpptDataOf m (mpptChannelOf c (.power ⟨v, cur⟩)))) now
          = d) := by
  interval_cases m <;> interval_cases c <;> rfl

/-- Witness for C9: controller 2 channel 1 maps to panel 0 on a fresh
snapshot. -/
theorem mppt_panel_mapping_witness :
    (DisplayData.mkDefault 0).ingest_eoi_can_data
        (.mppt (mpptDataOf 2 (mpptChannelOf 1 (.power ⟨EF.val 3, EF.val 2⟩)))) 7 =
      { DisplayData.mkDefault 0 with
          mppt_panel_info := (DisplayData.mkDefault 0).mppt_panel_info.set 0
            ⟨some (EF.val 3 * EF.val 2, EF.val 3, EF.val 2), 7⟩ } :=
  mppt_panel_mapping (DisplayData.mkDefault 0) 7 2 1 (by decide) (by decide)
    (EF.val 3) (EF.val 2)

/-- C10: decoded GNSS latitude and longitude, VESC status messages 2 and 3,
and every throttle message other than the status variant are accepted by
`ingest_eoi_can_data` but leave the telemetry snapshot unchanged. -/
theorem ingest_ignored_messages (d : DisplayData) (now : Nat) :
    (∀ x : EF, d.ingest_eoi_can_data (.gnss (.gnssLatitude x)) now = d) ∧
    (∀ x : EF, d.ingest_eoi_can_data (.gnss (.gnssLongitude x)) now = d) ∧
    (∀ a b : EF, d.ingest_eoi_can_data (.vesc (.statusMessage2 a b)) now = d) ∧
    (∀ a b : EF, d.ingest_eoi_can_data (.vesc (.statusMessage3 a b)) now = d) ∧
    (∀ x : EF, d.ingest_eoi_can_data (.throttle (.toVescDutyCycle x)) now = d) ∧
    (∀ x : EF, d.ingest_eoi_can_data (.throttle (.toVescCurrent x)) now = d) ∧
    (∀ x : EF, d.ingest_eoi_can_data (.throttle (.toVescRpm x)) now = d) ∧
    (∀ cfg : ThrottleConfig, d.ingest_eoi_can_data (.throttle (.config cfg)) now = d) :=
  ⟨fun _ => rfl, fun _ => rfl, fun _ _ => rfl, fun _ _ => rfl, fun _ => rfl,
    fun _ => rfl, fun _ => rfl, fun _ => rfl⟩

end Display
